import Mathlib

/-!
Verification of the go-turnstile repository: a Cloudflare Turnstile
verifier client (package `turnstile`) and an Echo middleware adapter
(package `echoturnstile`).

The Go code is shallowly embedded:
* Go `error` values become the inductive `GoError`.  The two package
  sentinels (`ErrInvalidRequest`, `ErrValidationFailed`, created once by
  `errors.New`) are dedicated constructors; every other error the code
  creates is a fresh allocation, so Go `==` on errors holds only for the
  sentinels, modelled by `goErrEq`.  `fmt.Errorf` with a `%w` verb becomes
  `GoError.wrap`, which `errorsIs` unwraps the way `errors.Is` does.
* The HTTP transport of `verifierClient.Verify` is external to the model;
  `VerifyDecoded` embeds the tail of `Verify` (main.go lines 130 to 134),
  taking the already decoded `VerificationResponse` as input.
* `echo.Context` becomes `EchoContext`: the request headers, the value
  `RealIP()` resolves to, and the value the random request-id generator of
  `echomiddleware.DefaultRequestIDConfig` would produce for this request
  (the generator is a library side effect, modelled as request data).
* Go `nil` function and interface fields become `Option`; the config
  structs mirror the Go structs field by field.
* `Process` (middelware.go lines 73 to 111) is embedded as `ProcessRun`
  over the five resolved (non-nil) field values, instrumented with the
  ordered list of field invocations it performs, so that claims about
  calls that must not happen are statements about the recorded trace.
-/

namespace GoTurnstile

/-- Go error values occurring in this repository.  `newError` covers
`errors.New` and `fmt.Errorf` without `%w` (the argument is the formatted
message); `wrap` covers `fmt.Errorf` with a trailing `%w` (the argument is
the text before the wrapped error); `echoHTTPError` covers
`echo.NewHTTPError`. -/
inductive GoError where
  | errInvalidRequest : GoError
  | errValidationFailed : GoError
  | newError (message : String) : GoError
  | wrap (message : String) (inner : GoError) : GoError
  | echoHTTPError (code : Nat) (message : String) : GoError
deriving Repr, DecidableEq

/-- Sentinel `ErrInvalidRequest = errors.New("invalid request")`. -/
def ErrInvalidRequest : GoError := GoError.errInvalidRequest

/-- Sentinel `ErrValidationFailed = errors.New("response validation failed")`. -/
def ErrValidationFailed : GoError := GoError.errValidationFailed

/-- Go `==` on error interface values: each `errors.New` / `fmt.Errorf` /
`echo.NewHTTPError` allocates a fresh value, so only the two package
sentinels compare equal to themselves. -/
def goErrEq : GoError → GoError → Bool
  | GoError.errInvalidRequest, GoError.errInvalidRequest => true
  | GoError.errValidationFailed, GoError.errValidationFailed => true
  | _, _ => false

/-- `errors.Is(e, target)`: direct equality, else unwrap one `%w` layer
and recurse. -/
def errorsIs : GoError → GoError → Bool
  | e, target =>
    goErrEq e target ||
      match e with
      | GoError.wrap _ inner => errorsIs inner target
      | _ => false

/-! Turnstile error codes (main.go lines 42 to 52).  Go type
`turnstileErrorCode` is a string type; the JSON decoder may produce any
string, so codes are modelled as `String` with the named constants. -/

def missingInputSecret : String := "missing-input-secret"

def invalidInputSecret : String := "invalid-input-secret"

def missingInputResponse : String := "missing-input-response"

def invalidInputResponse : String := "invalid-input-response"

def invalidWidgetID : String := "invalid-widget-id"

def invalidParsedSecret : String := "invalid-parsed-secret"

def badRequest : String := "bad-request"

def timeoutOrDuplicate : String := "timeout-or-duplicate"

def internalError : String := "internal-error"

/-- Go `fmt` rendering of a `[]turnstileErrorCode` under the `%v` verb. -/
def formatCodes (codes : List String) : String :=
  "[" ++ String.intercalate " " codes ++ "]"

/-- `mapErrorCodes` (main.go lines 137 to 154): a `switch` whose cases are
tried in order, each testing `slices.Contains`. -/
def mapErrorCodes (codes : List String) : GoError :=
  if codes.contains internalError then
    GoError.newError "turnstile server error"
  else if codes.contains invalidInputResponse || codes.contains timeoutOrDuplicate then
    GoError.wrap ("invalid, duplicate or expired response: " ++ formatCodes codes ++ " ")
      ErrValidationFailed
  else if codes.contains badRequest || codes.contains missingInputSecret ||
      codes.contains invalidInputSecret || codes.contains invalidParsedSecret ||
      codes.contains missingInputSecret || codes.contains invalidWidgetID ||
      codes.contains missingInputResponse then
    GoError.wrap ("validation error(s) on turnstile: " ++ formatCodes codes ++ " ")
      ErrInvalidRequest
  else
    GoError.newError ("unhandled turnstile error: " ++ formatCodes codes)

/-- `turnstile.VerificationRequest` (main.go lines 59 to 63). -/
structure VerificationRequest where
  Response : String
  RemoteIP : String
  IdempotencyKey : String
deriving Repr, DecidableEq

/-- `turnstile.VerificationResponse` (main.go lines 65 to 72).  The
`challenge_ts` timestamp is carried opaquely as a string. -/
structure VerificationResponse where
  Success : Bool
  ChallengeTs : String := ""
  Hostname : String := ""
  ErrorCodes : List String := []
  Action : String := ""
  Cdata : String := ""
deriving Repr, DecidableEq

/-- The default remote endpoint (main.go line 38). -/
def cloudflareTurnstileUrl : String :=
  "https://challenges.cloudflare.com/turnstile/v0/siteverify"

/-- A value of the `turnstile.Verifier` interface: either a
`*verifierClient` (whose behaviour involves the network and is external to
the model) or a caller-supplied implementation, carried as its result
function. -/
inductive Verifier where
  | client (secret : String) (url : String) : Verifier
  | custom (behavior : VerificationRequest → Option VerificationResponse × Option GoError) :
      Verifier

/-- `turnstile.NewVerifierClient` (main.go lines 83 to 88). -/
def NewVerifierClient (secret : String) : Verifier :=
  Verifier.client secret cloudflareTurnstileUrl

/-- `turnstile.NewVerifierClientWithURL` (main.go lines 90 to 95). -/
def NewVerifierClientWithURL (secret : String) (url : String) : Verifier :=
  Verifier.client secret url

/-- The tail of `verifierClient.Verify` (main.go lines 130 to 134): given
the `VerificationResponse` decoded from the HTTP body, return the pair of
the response and the error `Verify` returns (`nil` modelled as `none`).
The serialization, transport and decoding steps, which abort earlier with
their own wrapped errors, are outside this model. -/
def VerifyDecoded (resp : VerificationResponse) : VerificationResponse × Option GoError :=
  if !resp.Success then
    (resp, some (mapErrorCodes resp.ErrorCodes))
  else
    (resp, none)

/-! ## The Echo middleware (package `echoturnstile`) -/

/-- The inbound request data the middleware reads through `echo.Context`:
the request headers, the client IP that `c.RealIP()` resolves to, and the
identifier the request-id generator of
`echomiddleware.DefaultRequestIDConfig` would produce for this request. -/
structure EchoContext where
  headers : List (String × String)
  realIP : String := ""
  generatedRequestID : String := ""
deriving Repr, DecidableEq

/-- `http.Header.Get`: the value of the first header with the given name,
or the empty string. -/
def headerGet (headers : List (String × String)) (name : String) : String :=
  match headers.find? (fun p => p.1 == name) with
  | some p => p.2
  | none => ""

/-- `echomiddleware.Skipper`. -/
abbrev Skipper := EchoContext → Bool

/-- `echoturnstile.TurnstileResponseExtractorFunc` (middelware.go line 113). -/
abbrev TurnstileResponseExtractorFunc := EchoContext → Except GoError String

/-- `echoturnstile.RemoteIPExtractorFunc` (middelware.go line 137). -/
abbrev RemoteIPExtractorFunc := EchoContext → Except GoError String

/-- `echoturnstile.IdempotencyKeyExtractorFunc` (middelware.go line 160). -/
abbrev IdempotencyKeyExtractorFunc := EchoContext → Except GoError String

/-- `echomiddleware.DefaultSkipper`, which always returns `false`. -/
def DefaultSkipper : Skipper := fun _ => false

/-- `defaultCloudFlareTurnstileHeaderKey` (middelware.go line 12). -/
def defaultCloudFlareTurnstileHeaderKey : String := "cf-turnstile-response"

/-- `defaultCloudFlareRemoteIPHeader` (middelware.go line 13). -/
def defaultCloudFlareRemoteIPHeader : String := "CF-Connecting-IP"

/-- `echo.ErrBadRequest.Code`. -/
def echoErrBadRequestCode : Nat := 400

/-- `echo.HeaderXRequestID`. -/
def HeaderXRequestID : String := "X-Request-Id"

/-- `requestHeaderTurnstileResponseExtractor` (middelware.go lines 115 to 117). -/
structure requestHeaderTurnstileResponseExtractor where
  headerName : String
deriving Repr, DecidableEq

/-- `requestHeaderTurnstileResponseExtractor.Extract`
(middelware.go lines 127 to 135). -/
def requestHeaderTurnstileResponseExtractor.Extract
    (e : requestHeaderTurnstileResponseExtractor) (c : EchoContext) :
    Except GoError String :=
  let val := headerGet c.headers e.headerName
  if val = "" then
    Except.error (GoError.echoHTTPError echoErrBadRequestCode
      ("expected turnstile response in header " ++ e.headerName))
  else
    Except.ok val

/-- `RequestHeaderTurnstileResponseExtractorFuncWithHeaderName`
(middelware.go lines 123 to 125). -/
def RequestHeaderTurnstileResponseExtractorFuncWithHeaderName
    (headerName : String) : TurnstileResponseExtractorFunc :=
  (requestHeaderTurnstileResponseExtractor.mk headerName).Extract

/-- `RequestHeaderTurnstileResponseExtractorFunc`
(middelware.go lines 119 to 121); Go writes it as a nullary function, the
model as the value it returns. -/
def RequestHeaderTurnstileResponseExtractorFunc : TurnstileResponseExtractorFunc :=
  RequestHeaderTurnstileResponseExtractorFuncWithHeaderName
    defaultCloudFlareTurnstileHeaderKey

/-- `EchoRemoteIPExtractor` (middelware.go lines 139 to 141). -/
def EchoRemoteIPExtractor : RemoteIPExtractorFunc :=
  fun c => Except.ok c.realIP

/-- `requestHeaderRemoteIPExtractor` (middelware.go lines 143 to 145). -/
structure requestHeaderRemoteIPExtractor where
  headerName : String
deriving Repr, DecidableEq

/-- `requestHeaderRemoteIPExtractor.Extract`
(middelware.go lines 147 to 154). -/
def requestHeaderRemoteIPExtractor.Extract
    (e : requestHeaderRemoteIPExtractor) (c : EchoContext) :
    Except GoError String :=
  let val := headerGet c.headers e.headerName
  if val = "" then
    Except.error (GoError.wrap
      ("expected turnstile response in header " ++ e.headerName ++ ": ")
      (GoError.echoHTTPError echoErrBadRequestCode "Bad Request"))
  else
    Except.ok val

/-- `CloudFlareRequestHeaderRemoteIPExtractor`
(middelware.go lines 156 to 158). -/
def CloudFlareRequestHeaderRemoteIPExtractor : RemoteIPExtractorFunc :=
  (requestHeaderRemoteIPExtractor.mk defaultCloudFlareRemoteIPHeader).Extract

/-- `EchoIdempotencyKeyExtractor` (middelware.go lines 162 to 169): reuse
the inbound `X-Request-Id` header, else the generated identifier. -/
def EchoIdempotencyKeyExtractor : IdempotencyKeyExtractorFunc :=
  fun c =>
    let requestId := headerGet c.headers HeaderXRequestID
    let requestId := if requestId = "" then c.generatedRequestID else requestId
    Except.ok requestId

/-- `echoturnstile.Config` (middelware.go lines 24 to 30): every field is
an optional override, `none` modelling the Go `nil`. -/
structure Config where
  Skipper : Option Skipper := none
  TurnstileVerifier : Option Verifier := none
  TurnstileResponseExtractorFunc : Option TurnstileResponseExtractorFunc := none
  RemoteIPExtractorFunc : Option RemoteIPExtractorFunc := none
  IdempotencyKeyExtractorFunc : Option IdempotencyKeyExtractorFunc := none

/-- The `middleware` struct (middelware.go lines 16 to 22), with `Option`
for the Go `nil` a field may hold. -/
structure middleware where
  skipper : Option Skipper
  turnstileVerifier : Option Verifier
  turnstileResponseExtractorFunc : Option TurnstileResponseExtractorFunc
  remoteIPExtractorFunc : Option RemoteIPExtractorFunc
  idempotencyKeyExtractorFunc : Option IdempotencyKeyExtractorFunc

/-- `NewMiddlewareWithConfig` (middelware.go lines 36 to 71).  Each local
variable starts at the Go zero value `nil` and is assigned the default
only under `cfg.<field> == nil`; the struct is then built from the locals.
(The config fields themselves are never read into the struct.)  Go returns
`mw.Process`; the model returns the struct, whose processing behaviour
`ProcessRun` describes. -/
def NewMiddlewareWithConfig (secret : String) (cfg : Config) : middleware :=
  { skipper := if cfg.Skipper.isNone then some DefaultSkipper else none
    turnstileVerifier :=
      if cfg.TurnstileVerifier.isNone then some (NewVerifierClient secret) else none
    turnstileResponseExtractorFunc :=
      if cfg.TurnstileResponseExtractorFunc.isNone then
        some RequestHeaderTurnstileResponseExtractorFunc
      else none
    remoteIPExtractorFunc :=
      if cfg.RemoteIPExtractorFunc.isNone then some EchoRemoteIPExtractor else none
    idempotencyKeyExtractorFunc :=
      if cfg.IdempotencyKeyExtractorFunc.isNone then
        some EchoIdempotencyKeyExtractor
      else none }

/-- `NewMiddleware` (middelware.go lines 32 to 34). -/
def NewMiddleware (secret : String) : middleware :=
  NewMiddlewareWithConfig secret {}

/-- The field invocations `Process` can perform after the skip check
(the extractors, the verifier, the downstream handler). -/
inductive Call where
  | extractResponse : Call
  | extractRemoteIP : Call
  | extractIdemKey : Call
  | verify : Call
  | next : Call
deriving Repr, DecidableEq

/-- The five resolved (non-nil) field values of a `middleware`; the
verifier is carried as its result function `(resp, err)`, `nil` results
modelled as `none`. -/
structure MWFields where
  skipper : Skipper
  verify : VerificationRequest → Option VerificationResponse × Option GoError
  extractResponse : TurnstileResponseExtractorFunc
  extractRemoteIP : RemoteIPExtractorFunc
  extractIdemKey : IdempotencyKeyExtractorFunc

/-- `middleware.Process` (middelware.go lines 73 to 111) over the resolved
field values, paired with the ordered trace of field invocations: skip
check, the three extractions each short-circuiting with its own error,
the verifier call whose `ErrValidationFailed` outcome is replaced by a
fixed 400 response and whose other errors pass unchanged, then the
downstream handler. -/
def ProcessRun (mw : MWFields) (next : EchoContext → Option GoError) (c : EchoContext) :
    Option GoError × List Call :=
  if mw.skipper c then
    (next c, [Call.next])
  else
    match mw.extractResponse c with
    | Except.error err => (some err, [Call.extractResponse])
    | Except.ok turnstileResponseValue =>
      match mw.extractRemoteIP c with
      | Except.error err => (some err, [Call.extractResponse, Call.extractRemoteIP])
      | Except.ok remoteIP =>
        match mw.extractIdemKey c with
        | Except.error err =>
          (some err, [Call.extractResponse, Call.extractRemoteIP, Call.extractIdemKey])
        | Except.ok idempotencyKey =>
          let req : VerificationRequest :=
            { Response := turnstileResponseValue
              RemoteIP := remoteIP
              IdempotencyKey := idempotencyKey }
          match (mw.verify req).2 with
          | some err =>
            if errorsIs err ErrValidationFailed then
              (some (GoError.echoHTTPError echoErrBadRequestCode
                  "CloudFlare Turnstile verification failed"),
                [Call.extractResponse, Call.extractRemoteIP, Call.extractIdemKey,
                  Call.verify])
            else
              (some err,
                [Call.extractResponse, Call.extractRemoteIP, Call.extractIdemKey,
                  Call.verify])
          | none =>
            (next c,
              [Call.extractResponse, Call.extractRemoteIP, Call.extractIdemKey,
                Call.verify, Call.next])

/-- The error `Process` returns, forgetting the trace. -/
def Process (mw : MWFields) (next : EchoContext → Option GoError) (c : EchoContext) :
    Option GoError :=
  (ProcessRun mw next c).1

end GoTurnstile

namespace GoTurnstile

/-! ## Fixtures used by the witness theorems -/

/-- A concrete inbound request context. -/
def exCtx : EchoContext :=
  { headers := [(defaultCloudFlareTurnstileHeaderKey, "tok")]
    realIP := "203.0.113.7"
    generatedRequestID := "req-1" }

/-- A downstream handler that succeeds. -/
def exNext : EchoContext → Option GoError := fun _ => none

/-- Resolved middleware fields whose extractors all succeed and whose
verifier reports the given error. -/
def mwVerifyErr (e : GoError) : MWFields :=
  { skipper := fun _ => false
    verify := fun _ => (none, some e)
    extractResponse := fun _ => Except.ok "tok"
    extractRemoteIP := fun _ => Except.ok "203.0.113.7"
    extractIdemKey := fun _ => Except.ok "req-1" }

/-- Resolved middleware fields whose extractors all succeed and whose
verifier returns the given response with a nil error. -/
def mwVerifyOk (resp : VerificationResponse) : MWFields :=
  { skipper := fun _ => false
    verify := fun _ => (some resp, none)
    extractResponse := fun _ => Except.ok "tok"
    extractRemoteIP := fun _ => Except.ok "203.0.113.7"
    extractIdemKey := fun _ => Except.ok "req-1" }

/-- Resolved middleware fields whose skip predicate is always true. -/
def mwSkip : MWFields :=
  { skipper := fun _ => true
    verify := fun _ => (none, none)
    extractResponse := fun _ => Except.ok "tok"
    extractRemoteIP := fun _ => Except.ok "203.0.113.7"
    extractIdemKey := fun _ => Except.ok "req-1" }

/-- Resolved middleware fields whose token extractor fails. -/
def mwRespErr : MWFields :=
  { skipper := fun _ => false
    verify := fun _ => (none, none)
    extractResponse := fun _ => Except.error (GoError.newError "no token")
    extractRemoteIP := fun _ => Except.ok "203.0.113.7"
    extractIdemKey := fun _ => Except.ok "req-1" }

/-- Resolved middleware fields whose remote-IP extractor fails. -/
def mwIPErr : MWFields :=
  { skipper := fun _ => false
    verify := fun _ => (none, none)
    extractResponse := fun _ => Except.ok "tok"
    extractRemoteIP := fun _ => Except.error (GoError.newError "no ip")
    extractIdemKey := fun _ => Except.ok "req-1" }

/-- Resolved middleware fields whose idempotency-key extractor fails. -/
def mwKeyErr : MWFields :=
  { skipper := fun _ => false
    verify := fun _ => (none, none)
    extractResponse := fun _ => Except.ok "tok"
    extractRemoteIP := fun _ => Except.ok "203.0.113.7"
    extractIdemKey := fun _ => Except.error (GoError.newError "no key") }

/-! ## Claims -/

/-- C1: the claim fails on the code.  `NewMiddlewareWithConfig` never
reads a non-nil config field into the middleware: each local variable is
assigned only when the corresponding config field is nil, so a provided
override leaves the middleware field nil (`none`), and the override is
never used.  Evaluated here at a config with each of the five overrides
set in turn. -/
theorem NewMiddlewareWithConfig_discards_set_overrides :
    (NewMiddlewareWithConfig "secret" { Skipper := some fun _ => true }).skipper = none ∧
    (NewMiddlewareWithConfig "secret"
      { TurnstileVerifier := some (Verifier.custom fun _ => (none, none)) }).turnstileVerifier
        = none ∧
    (NewMiddlewareWithConfig "secret"
      { TurnstileResponseExtractorFunc := some fun _ => Except.ok "token"
        }).turnstileResponseExtractorFunc = none ∧
    (NewMiddlewareWithConfig "secret"
      { RemoteIPExtractorFunc := some fun _ => Except.ok "10.0.0.1" }).remoteIPExtractorFunc
        = none ∧
    (NewMiddlewareWithConfig "secret"
      { IdempotencyKeyExtractorFunc := some fun _ => Except.ok "key"
        }).idempotencyKeyExtractorFunc = none :=
  ⟨rfl, rfl, rfl, rfl, rfl⟩

/-- C2: every config field left unset (`none`) is independently given its
documented default — `DefaultSkipper`, a verifier client built from the
secret, the default header token extractor, the Echo remote-IP extractor,
the Echo idempotency-key extractor — whatever the other fields hold; and
`NewMiddleware` (an empty config) yields all five defaults. -/
theorem NewMiddlewareWithConfig_defaults_unset_fields (secret : String) (cfg : Config) :
    (cfg.Skipper = none → (NewMiddlewareWithConfig secret cfg).skipper = some DefaultSkipper) ∧
    (cfg.TurnstileVerifier = none →
      (NewMiddlewareWithConfig secret cfg).turnstileVerifier = some (NewVerifierClient secret)) ∧
    (cfg.TurnstileResponseExtractorFunc = none →
      (NewMiddlewareWithConfig secret cfg).turnstileResponseExtractorFunc =
        some RequestHeaderTurnstileResponseExtractorFunc) ∧
    (cfg.RemoteIPExtractorFunc = none →
      (NewMiddlewareWithConfig secret cfg).remoteIPExtractorFunc = some EchoRemoteIPExtractor) ∧
    (cfg.IdempotencyKeyExtractorFunc = none →
      (NewMiddlewareWithConfig secret cfg).idempotencyKeyExtractorFunc =
        some EchoIdempotencyKeyExtractor) ∧
    (NewMiddleware secret).skipper = some DefaultSkipper ∧
    (NewMiddleware secret).turnstileVerifier = some (NewVerifierClient secret) ∧
    (NewMiddleware secret).turnstileResponseExtractorFunc =
      some RequestHeaderTurnstileResponseExtractorFunc ∧
    (NewMiddleware secret).remoteIPExtractorFunc = some EchoRemoteIPExtractor ∧
    (NewMiddleware secret).idempotencyKeyExtractorFunc = some EchoIdempotencyKeyExtractor := by
  refine ⟨?_, ?_, ?_, ?_, ?_, rfl, rfl, rfl, rfl, rfl⟩ <;>
    intro h <;> simp [NewMiddlewareWithConfig, h]

/-- Witness for C2 at the empty config. -/
theorem NewMiddlewareWithConfig_defaults_unset_fields_witness :
    ({} : Config).Skipper = none ∧
    ({} : Config).TurnstileVerifier = none ∧
    (NewMiddlewareWithConfig "example-secret" {}).skipper = some DefaultSkipper ∧
    (NewMiddlewareWithConfig "example-secret" {}).turnstileVerifier =
      some (NewVerifierClient "example-secret") :=
  ⟨rfl, rfl,
    (NewMiddlewareWithConfig_defaults_unset_fields "example-secret" {}).1 rfl,
    (NewMiddlewareWithConfig_defaults_unset_fields "example-secret" {}).2.1 rfl⟩

/-- C3: any code sequence containing `internal-error` maps to the generic
opaque server error, which matches neither `ErrValidationFailed` nor
`ErrInvalidRequest` under `errors.Is`, whatever other codes are present. -/
theorem mapErrorCodes_internal_error_opaque (codes : List String)
    (h : codes.contains internalError = true) :
    mapErrorCodes codes = GoError.newError "turnstile server error" ∧
    errorsIs (mapErrorCodes codes) ErrValidationFailed = false ∧
    errorsIs (mapErrorCodes codes) ErrInvalidRequest = false := by
  have hm : internalError ∈ codes := by simpa using h
  refine ⟨?_, ?_, ?_⟩ <;>
    simp [mapErrorCodes, hm, errorsIs, goErrEq, ErrValidationFailed, ErrInvalidRequest]

/-- Witness for C3 on a sequence that also contains another code. -/
theorem mapErrorCodes_internal_error_opaque_witness :
    ([timeoutOrDuplicate, internalError].contains internalError = true) ∧
    (mapErrorCodes [timeoutOrDuplicate, internalError] =
        GoError.newError "turnstile server error" ∧
      errorsIs (mapErrorCodes [timeoutOrDuplicate, internalError]) ErrValidationFailed = false ∧
      errorsIs (mapErrorCodes [timeoutOrDuplicate, internalError]) ErrInvalidRequest = false) :=
  ⟨by decide, mapErrorCodes_internal_error_opaque [timeoutOrDuplicate, internalError] (by decide)⟩

/-- C4: a code sequence containing `invalid-input-response` or
`timeout-or-duplicate` but not `internal-error` maps to an error matching
`ErrValidationFailed` under `errors.Is`. -/
theorem mapErrorCodes_validation_failed (codes : List String)
    (h1 : (codes.contains invalidInputResponse || codes.contains timeoutOrDuplicate) = true)
    (h2 : codes.contains internalError = false) :
    errorsIs (mapErrorCodes codes) ErrValidationFailed = true := by
  have hm1 : invalidInputResponse ∈ codes ∨ timeoutOrDuplicate ∈ codes := by simpa using h1
  have hm2 : internalError ∉ codes := by simpa using h2
  simp [mapErrorCodes, hm1, hm2, errorsIs, goErrEq, ErrValidationFailed]

/-- Witness for C4. -/
theorem mapErrorCodes_validation_failed_witness :
    (([timeoutOrDuplicate].contains invalidInputResponse ||
        [timeoutOrDuplicate].contains timeoutOrDuplicate) = true) ∧
    ([timeoutOrDuplicate].contains internalError = false) ∧
    errorsIs (mapErrorCodes [timeoutOrDuplicate]) ErrValidationFailed = true :=
  ⟨by decide, by decide,
    mapErrorCodes_validation_failed [timeoutOrDuplicate] (by decide) (by decide)⟩

/-- C5: a code sequence containing one of the six caller-misuse codes and
none of `internal-error`, `invalid-input-response`, `timeout-or-duplicate`
maps to an error matching `ErrInvalidRequest` under `errors.Is`. -/
theorem mapErrorCodes_invalid_request (codes : List String)
    (h1 : (codes.contains badRequest || codes.contains missingInputSecret ||
      codes.contains invalidInputSecret || codes.contains invalidParsedSecret ||
      codes.contains invalidWidgetID || codes.contains missingInputResponse) = true)
    (h2 : codes.contains internalError = false)
    (h3 : codes.contains invalidInputResponse = false)
    (h4 : codes.contains timeoutOrDuplicate = false) :
    errorsIs (mapErrorCodes codes) ErrInvalidRequest = true := by
  have hm1 : ((((badRequest ∈ codes ∨ missingInputSecret ∈ codes) ∨ invalidInputSecret ∈ codes) ∨
      invalidParsedSecret ∈ codes) ∨ invalidWidgetID ∈ codes) ∨
      missingInputResponse ∈ codes := by simpa using h1
  have hm2 : internalError ∉ codes := by simpa using h2
  have hm3 : invalidInputResponse ∉ codes := by simpa using h3
  have hm4 : timeoutOrDuplicate ∉ codes := by simpa using h4
  have hm1x : (((((badRequest ∈ codes ∨ missingInputSecret ∈ codes) ∨
      invalidInputSecret ∈ codes) ∨ invalidParsedSecret ∈ codes) ∨
      missingInputSecret ∈ codes) ∨ invalidWidgetID ∈ codes) ∨
      missingInputResponse ∈ codes := by tauto
  simp [mapErrorCodes, hm1x, hm2, hm3, hm4, errorsIs, goErrEq, ErrInvalidRequest]

/-- Witness for C5. -/
theorem mapErrorCodes_invalid_request_witness :
    (([invalidInputSecret].contains badRequest ||
        [invalidInputSecret].contains missingInputSecret ||
        [invalidInputSecret].contains invalidInputSecret ||
        [invalidInputSecret].contains invalidParsedSecret ||
        [invalidInputSecret].contains invalidWidgetID ||
        [invalidInputSecret].contains missingInputResponse) = true) ∧
    ([invalidInputSecret].contains internalError = false) ∧
    errorsIs (mapErrorCodes [invalidInputSecret]) ErrInvalidRequest = true :=
  ⟨by decide, by decide,
    mapErrorCodes_invalid_request [invalidInputSecret]
      (by decide) (by decide) (by decide) (by decide)⟩

/-- C6: a code sequence matching none of the classification rules (the
empty sequence included) maps to a non-nil opaque error carrying the raw
code list, matching neither sentinel; and on any decoded response with
`success = false`, `Verify` returns exactly `mapErrorCodes` of its codes,
never a nil error. -/
theorem mapErrorCodes_unmatched_opaque (codes : List String) (resp : VerificationResponse)
    (h1 : codes.contains internalError = false)
    (h2 : codes.contains invalidInputResponse = false)
    (h3 : codes.contains timeoutOrDuplicate = false)
    (h4 : codes.contains badRequest = false)
    (h5 : codes.contains missingInputSecret = false)
    (h6 : codes.contains invalidInputSecret = false)
    (h7 : codes.contains invalidParsedSecret = false)
    (h8 : codes.contains invalidWidgetID = false)
    (h9 : codes.contains missingInputResponse = false)
    (hresp : resp.Success = false) :
    mapErrorCodes codes = GoError.newError ("unhandled turnstile error: " ++ formatCodes codes) ∧
    errorsIs (mapErrorCodes codes) ErrValidationFailed = false ∧
    errorsIs (mapErrorCodes codes) ErrInvalidRequest = false ∧
    (VerifyDecoded resp).2 = some (mapErrorCodes resp.ErrorCodes) := by
  have hm1 : internalError ∉ codes := by simpa using h1
  have hm2 : invalidInputResponse ∉ codes := by simpa using h2
  have hm3 : timeoutOrDuplicate ∉ codes := by simpa using h3
  have hm4 : badRequest ∉ codes := by simpa using h4
  have hm5 : missingInputSecret ∉ codes := by simpa using h5
  have hm6 : invalidInputSecret ∉ codes := by simpa using h6
  have hm7 : invalidParsedSecret ∉ codes := by simpa using h7
  have hm8 : invalidWidgetID ∉ codes := by simpa using h8
  have hm9 : missingInputResponse ∉ codes := by simpa using h9
  refine ⟨?_, ?_, ?_, ?_⟩ <;>
    simp [mapErrorCodes, VerifyDecoded, hresp, hm1, hm2, hm3, hm4, hm5, hm6, hm7, hm8, hm9,
      errorsIs, goErrEq, ErrValidationFailed, ErrInvalidRequest]

/-- Witness for C6 on an unrecognised code and a failing response. -/
theorem mapErrorCodes_unmatched_opaque_witness :
    (["unknown-code"].contains internalError = false) ∧
    (({ Success := false, ErrorCodes := ["unknown-code"] } :
        VerificationResponse).Success = false) ∧
    (mapErrorCodes ["unknown-code"] =
        GoError.newError ("unhandled turnstile error: " ++ formatCodes ["unknown-code"]) ∧
      errorsIs (mapErrorCodes ["unknown-code"]) ErrValidationFailed = false ∧
      errorsIs (mapErrorCodes ["unknown-code"]) ErrInvalidRequest = false ∧
      (VerifyDecoded { Success := false, ErrorCodes := ["unknown-code"] }).2 =
        some (mapErrorCodes ["unknown-code"])) :=
  ⟨by decide, rfl,
    mapErrorCodes_unmatched_opaque ["unknown-code"]
      { Success := false, ErrorCodes := ["unknown-code"] }
      (by decide) (by decide) (by decide) (by decide) (by decide) (by decide) (by decide)
      (by decide) (by decide) rfl⟩

end GoTurnstile

namespace GoTurnstile

/-- C7: when the verifier reports an error, `Process` rejects a
`ErrValidationFailed`-matching error with the fixed 400 response carrying
the fixed message (no classification detail), and returns every other
verifier error completely unchanged. -/
theorem Process_verifier_error_handling (mw : MWFields)
    (next : EchoContext → Option GoError) (c : EchoContext)
    (tok ip key : String) (e : GoError)
    (hs : mw.skipper c = false)
    (h1 : mw.extractResponse c = Except.ok tok)
    (h2 : mw.extractRemoteIP c = Except.ok ip)
    (h3 : mw.extractIdemKey c = Except.ok key)
    (hv : (mw.verify { Response := tok, RemoteIP := ip, IdempotencyKey := key }).2 = some e) :
    (errorsIs e ErrValidationFailed = true →
      Process mw next c = some (GoError.echoHTTPError echoErrBadRequestCode
        "CloudFlare Turnstile verification failed")) ∧
    (errorsIs e ErrValidationFailed = false → Process mw next c = some e) := by
  constructor <;> intro his <;> simp [Process, ProcessRun, hs, h1, h2, h3, hv, his]

/-- Witness for C7: a validation failure is masked, an opaque error
passes unchanged. -/
theorem Process_verifier_error_handling_witness :
    ((mwVerifyErr (mapErrorCodes [timeoutOrDuplicate])).skipper exCtx = false) ∧
    (errorsIs (mapErrorCodes [timeoutOrDuplicate]) ErrValidationFailed = true) ∧
    (Process (mwVerifyErr (mapErrorCodes [timeoutOrDuplicate])) exNext exCtx =
      some (GoError.echoHTTPError echoErrBadRequestCode
        "CloudFlare Turnstile verification failed")) ∧
    (errorsIs (GoError.newError "dial tcp: timeout") ErrValidationFailed = false) ∧
    (Process (mwVerifyErr (GoError.newError "dial tcp: timeout")) exNext exCtx =
      some (GoError.newError "dial tcp: timeout")) :=
  ⟨rfl, by decide,
    (Process_verifier_error_handling (mwVerifyErr (mapErrorCodes [timeoutOrDuplicate]))
      exNext exCtx "tok" "203.0.113.7" "req-1" (mapErrorCodes [timeoutOrDuplicate])
      rfl rfl rfl rfl rfl).1 (by decide),
    by decide,
    (Process_verifier_error_handling (mwVerifyErr (GoError.newError "dial tcp: timeout"))
      exNext exCtx "tok" "203.0.113.7" "req-1" (GoError.newError "dial tcp: timeout")
      rfl rfl rfl rfl rfl).2 (by decide)⟩

/-- C8: a failing extractor short-circuits `Process` with its own error
unchanged, in pipeline order: a token-extractor failure stops before the
other extractors and the verifier, a remote-IP failure stops before the
idempotency-key extractor and the verifier, an idempotency-key failure
stops before the verifier; the downstream handler never runs. -/
theorem Process_extractor_error_short_circuit (mw : MWFields)
    (next : EchoContext → Option GoError) (c : EchoContext)
    (hs : mw.skipper c = false) :
    (∀ e, mw.extractResponse c = Except.error e →
      ProcessRun mw next c = (some e, [Call.extractResponse])) ∧
    (∀ tok e, mw.extractResponse c = Except.ok tok →
      mw.extractRemoteIP c = Except.error e →
      ProcessRun mw next c = (some e, [Call.extractResponse, Call.extractRemoteIP])) ∧
    (∀ tok ip e, mw.extractResponse c = Except.ok tok →
      mw.extractRemoteIP c = Except.ok ip →
      mw.extractIdemKey c = Except.error e →
      ProcessRun mw next c =
        (some e, [Call.extractResponse, Call.extractRemoteIP, Call.extractIdemKey])) := by
  refine ⟨?_, ?_, ?_⟩
  · intro e he; simp [ProcessRun, hs, he]
  · intro tok e h1 h2; simp [ProcessRun, hs, h1, h2]
  · intro tok ip e h1 h2 h3; simp [ProcessRun, hs, h1, h2, h3]

/-- Witness for C8 at each of the three failing stages. -/
theorem Process_extractor_error_short_circuit_witness :
    (mwRespErr.skipper exCtx = false) ∧
    (ProcessRun mwRespErr exNext exCtx =
      (some (GoError.newError "no token"), [Call.extractResponse])) ∧
    (ProcessRun mwIPErr exNext exCtx =
      (some (GoError.newError "no ip"), [Call.extractResponse, Call.extractRemoteIP])) ∧
    (ProcessRun mwKeyErr exNext exCtx =
      (some (GoError.newError "no key"),
        [Call.extractResponse, Call.extractRemoteIP, Call.extractIdemKey])) :=
  ⟨rfl,
    (Process_extractor_error_short_circuit mwRespErr exNext exCtx rfl).1
      (GoError.newError "no token") rfl,
    (Process_extractor_error_short_circuit mwIPErr exNext exCtx rfl).2.1
      "tok" (GoError.newError "no ip") rfl rfl,
    (Process_extractor_error_short_circuit mwKeyErr exNext exCtx rfl).2.2
      "tok" "203.0.113.7" (GoError.newError "no key") rfl rfl rfl⟩

/-- C9: when the skip predicate holds, `Process` returns the downstream
handler's result on the original context and the trace records only that
handler call: no extractor and no verifier invocation. -/
theorem Process_skipper_bypass (mw : MWFields)
    (next : EchoContext → Option GoError) (c : EchoContext)
    (h : mw.skipper c = true) :
    ProcessRun mw next c = (next c, [Call.next]) := by
  simp [ProcessRun, h]

/-- Witness for C9. -/
theorem Process_skipper_bypass_witness :
    (mwSkip.skipper exCtx = true) ∧
    ProcessRun mwSkip exNext exCtx = (exNext exCtx, [Call.next]) :=
  ⟨rfl, Process_skipper_bypass mwSkip exNext exCtx rfl⟩

/-- C10: a decoded response with `success = true` is returned by `Verify`
with a nil error even when its error-code list is non-empty (the codes are
read only under `success = false`); and a nil verifier error makes
`Process` invoke the downstream handler. -/
theorem VerifyDecoded_success_ignores_codes :
    (∀ resp : VerificationResponse, resp.Success = true → VerifyDecoded resp = (resp, none)) ∧
    (∀ (mw : MWFields) (next : EchoContext → Option GoError) (c : EchoContext)
      (tok ip key : String),
      mw.skipper c = false →
      mw.extractResponse c = Except.ok tok →
      mw.extractRemoteIP c = Except.ok ip →
      mw.extractIdemKey c = Except.ok key →
      (mw.verify { Response := tok, RemoteIP := ip, IdempotencyKey := key }).2 = none →
      ProcessRun mw next c = (next c,
        [Call.extractResponse, Call.extractRemoteIP, Call.extractIdemKey, Call.verify,
          Call.next])) := by
  constructor
  · intro resp h; simp [VerifyDecoded, h]
  · intro mw next c tok ip key hs h1 h2 h3 hv
    simp [ProcessRun, hs, h1, h2, h3, hv]

/-- Witness for C10 on a successful response carrying a non-empty code
list, fed through the middleware. -/
theorem VerifyDecoded_success_ignores_codes_witness :
    (({ Success := true, ErrorCodes := [internalError] } :
        VerificationResponse).Success = true) ∧
    (VerifyDecoded { Success := true, ErrorCodes := [internalError] } =
      ({ Success := true, ErrorCodes := [internalError] }, none)) ∧
    (ProcessRun (mwVerifyOk { Success := true, ErrorCodes := [internalError] }) exNext exCtx =
      (exNext exCtx,
        [Call.extractResponse, Call.extractRemoteIP, Call.extractIdemKey, Call.verify,
          Call.next])) :=
  ⟨rfl,
    VerifyDecoded_success_ignores_codes.1 { Success := true, ErrorCodes := [internalError] } rfl,
    VerifyDecoded_success_ignores_codes.2
      (mwVerifyOk { Success := true, ErrorCodes := [internalError] }) exNext exCtx
      "tok" "203.0.113.7" "req-1" rfl rfl rfl rfl rfl⟩

end GoTurnstile
